import Mathlib

/-!
Verification of the fdu parallel disk-usage walker.

Shallow embedding of the repository's core (src/core/worker.rs,
src/core/walker.rs, src/config.rs, src/utils.rs, src/cli.rs). Pure
functions of the source become Lean functions over an abstract
filesystem; the concurrent run loop becomes a small-step transition
relation over an explicit scheduler state. Machine integers (u64) are
Nat with explicit reduction modulo 2 ^ 64 where the source performs
u64 arithmetic; i64 deltas are Int. Fallible Rust functions returning
anyhow::Result are embedded as Except.
-/

/-- Unsigned 64-bit modulus, for u64 arithmetic of the source. -/
def U64 : Nat := 2 ^ 64

/-- A filesystem path, as a list of components (PathBuf in the source).
Only equality and the parent operation are ever consumed by the code. -/
abbrev FPath := List String

/-- PathBuf::parent: none for an empty path, otherwise the path without
its last component. -/
def FPath.parent : FPath → Option FPath
  | [] => none
  | ps => some ps.dropLast

/-- std::fs::FileType classification as consumed by the source
(is_dir, is_block_device, is_char_device, is_fifo, is_socket,
is_symlink, or a regular file). -/
inductive FileType where
  | regular
  | dir
  | symlink
  | fifo
  | socket
  | blockDev
  | charDev
deriving DecidableEq

/-- The metadata fields the source reads: the file type and st_blocks,
the number of 512-byte blocks (a u64; a unit count, not bytes). -/
structure Metadata where
  fileType : FileType
  blocks : Nat
deriving DecidableEq

/-- One entry yielded by fs::read_dir: its path and the result of
entry.file_type().ok() — none when the file type cannot be determined
(worker.rs:295 discards that error with .ok()). -/
structure DirEntry where
  path : FPath
  fileType : Option FileType
deriving DecidableEq

/-- The filesystem interface the worker consumes: symlink_metadata
(lstat, never following symlinks; none models an Err) and read_dir
(none models an open failure; a none element models an Err yielded by
the directory iterator for one entry). -/
structure FS where
  lstat : FPath → Option Metadata
  read_dir : FPath → Option (List (Option DirEntry))

/-- worker.rs:15-20 — a work unit: path, optional parent path, depth
relative to the root, and the producer's directory tag. -/
structure Job where
  path : FPath
  parent : Option FPath
  depth : Nat
  is_dir : Bool
deriving DecidableEq

/-- worker.rs:35-42 Job::new. -/
def Job.new (path : FPath) (parent : Option FPath) (depth : Nat) (is_dir : Bool) : Job :=
  { path := path, parent := parent, depth := depth, is_dir := is_dir }

/-- worker.rs:22-24 — the value a worker folds itself into on exit. -/
structure WorkerResult where
  total_blocks : Nat
deriving DecidableEq

/-- The mutable per-worker state of WalkWorker (worker.rs:63-76):
local work delta (i64) and the statistics counters. -/
structure WStats where
  local_work_delta : Int
  dirs_processed : Nat
  files_processed : Nat
  errors_count : Nat
  total_blocks : Nat
deriving DecidableEq

/-- The zero state WalkWorker::new installs (worker.rs:97-101). -/
def wstats0 : WStats :=
  { local_work_delta := 0, dirs_processed := 0, files_processed := 0,
    errors_count := 0, total_blocks := 0 }

/-- worker.rs:27-31 WorkerResult::new. -/
def WorkerResult.new (worker : WStats) : WorkerResult :=
  { total_blocks := worker.total_blocks }

/-- The configuration WalkWorker receives from the walker
(walker.rs:72-73: follow_symlinks and max_depth). -/
structure WCfg where
  follow_symlinks : Bool
  max_depth : Option Nat

/-- The errors process_job and process_file can return (anyhow errors in
the source, distinguished here by which return produced them):
the max-depth early return of worker.rs:269-278, or an I/O failure. -/
inductive PErr where
  | depthExceeded
  | ioError
deriving DecidableEq

/-- worker.rs:364-370 is_special_file: block device, char device, FIFO,
socket or symlink. -/
def is_special_file (fileType : FileType) : Bool :=
  fileType = FileType.blockDev || fileType = FileType.charDev ||
    fileType = FileType.fifo || fileType = FileType.socket ||
    fileType = FileType.symlink

/-- worker.rs:337-361 WalkWorker::process_file: read metadata with
symlink_metadata (never following symlinks); on success add
metadata.blocks (a u64 count of 512-byte units — no byte conversion
here) to total_blocks unless the file is special; on failure return the
error with the state unchanged. -/
def process_file (fs : FS) (st : WStats) (job : Job) : WStats × Except PErr Unit :=
  match fs.lstat job.path with
  | some metadata =>
    if !(is_special_file metadata.fileType) then
      ({ st with total_blocks := (st.total_blocks + metadata.blocks) % U64 }, Except.ok ())
    else
      -- special file: only logged, nothing accumulated
      (st, Except.ok ())
  | none => (st, Except.error PErr.ioError)

/-- The body of the for-loop over directory entries
(worker.rs:292-321), one entry at a time. The accumulator carries the
worker state and the jobs pushed onto the own queue so far, in push
order. A none entry is an Err from the read_dir iterator
(errors_count += 1, worker.rs:312-319); an entry whose file type is
none (entry.file_type().ok() failed) falls through the `if let` at
worker.rs:295 with no effect at all. -/
def dir_entry_step (fs : FS) (childDepth : Nat) (acc : WStats × List Job)
    (e : Option DirEntry) : WStats × List Job :=
  match e with
  | none =>
    ({ acc.1 with errors_count := acc.1.errors_count + 1 }, acc.2)
  | some entry =>
    match entry.fileType with
    | none => acc
    | some ft =>
      let parent := FPath.parent entry.path
      let new_job : Job := Job.new entry.path parent childDepth false
      if ft = FileType.dir then
        -- worker.rs:299-303: tag as directory, push onto the own
        -- queue, local_work_delta += 1
        ({ acc.1 with local_work_delta := acc.1.local_work_delta + 1 },
          acc.2 ++ [{ new_job with is_dir := true }])
      else
        -- worker.rs:304-309: files are processed inline, never enqueued
        let st1 := { acc.1 with files_processed := acc.1.files_processed + 1 }
        let r := process_file fs st1 new_job
        match r.2 with
        | Except.ok _ => (r.1, acc.2)
        | Except.error _ => ({ r.1 with errors_count := r.1.errors_count + 1 }, acc.2)

/-- worker.rs:280-334, process_job after the max-depth check: decrement
local_work_delta (the job is consumed), then either process a file
inline or list the directory. Returns the new state, the jobs pushed
onto the own queue (in push order) and the result. -/
def process_job_body (fs : FS) (st : WStats) (job : Job) :
    WStats × List Job × Except PErr Unit :=
  let st1 : WStats := { st with local_work_delta := st.local_work_delta - 1 }
  if !job.is_dir then
    let st2 : WStats := { st1 with files_processed := st1.files_processed + 1 }
    let r := process_file fs st2 job
    (r.1, [], r.2)
  else
    match fs.read_dir job.path with
    | some entries =>
      let acc := List.foldl (dir_entry_step fs (job.depth + 1)) (st1, ([] : List Job)) entries
      ({ acc.1 with dirs_processed := acc.1.dirs_processed + 1 }, acc.2, Except.ok ())
    | none =>
      -- worker.rs:325-333: open failure, return the error (the
      -- decrement above has already been applied)
      (st1, [], Except.error PErr.ioError)

/-- worker.rs:267-335 WalkWorker::process_job. The source checks
max_depth FIRST (worker.rs:269-278) and returns the depth-exceeded
error BEFORE the local_work_delta decrement at worker.rs:281. -/
def process_job (cfg : WCfg) (fs : FS) (st : WStats) (job : Job) :
    WStats × List Job × Except PErr Unit :=
  match cfg.max_depth with
  | some max =>
    if max < job.depth then (st, [], Except.error PErr.depthExceeded)
    else process_job_body fs st job
  | none => process_job_body fs st job

/-- worker.rs:207-212, the Some(job) arm of run_loop: process the job
and count any returned error into errors_count. -/
def run_loop_job (cfg : WCfg) (fs : FS) (st : WStats) (job : Job) :
    WStats × List Job :=
  let r := process_job cfg fs st job
  match r.2.2 with
  | Except.ok _ => (r.1, r.2.1)
  | Except.error _ => ({ r.1 with errors_count := r.1.errors_count + 1 }, r.2.1)

/-! Queue discipline. walker.rs:46 creates every per-worker queue with
crossbeam_deque::Worker::new_fifo(), whose documented semantics are:
push inserts at the back, pop takes from the front (the same end
stealers take from). A queue is its list of jobs, front first. -/

/-- crossbeam Worker::push for the FIFO flavor of walker.rs:46: insert
at the back. -/
def WorkerQueue.push (q : List Job) (j : Job) : List Job := q ++ [j]

/-- crossbeam Worker::pop for the FIFO flavor of walker.rs:46: take
from the front. -/
def WorkerQueue.pop (q : List Job) : Option (Job × List Job) :=
  match q with
  | [] => none
  | j :: rest => some (j, rest)

/-- worker.rs:155-181 steal_from_victims: walk the stealer array in
index order, skip the own index, return the first job found. A
stealer takes from the front of the victim's queue; Steal::Retry
cannot arise in this sequential model and is treated like Empty, as
the source also moves on to the next victim on Retry. -/
def steal_from_victims (id : Nat) (stealers : List (List Job)) : Option Job :=
  stealers.enum.findSome? (fun p => if p.1 = id then none else p.2.head?)

/-- worker.rs:127-152 steal_from_global: a batch steal from the FIFO
injector returns the job at its front (the rest of the batch lands on
the own queue; the batched state change is modeled in WalkStep). -/
def steal_from_global (injector : List Job) : Option Job :=
  injector.head?

/-- worker.rs:106-124 find_work, the three-tier strategy: own queue
pop first, then the victims, then the global injector. Returns the
job the source would return. -/
def find_work (id : Nat) (own : List Job) (stealers : List (List Job))
    (injector : List Job) : Option Job :=
  match WorkerQueue.pop own with
  | some (j, _) => some j
  | none =>
    match steal_from_victims id stealers with
    | some j => some j
    | none => steal_from_global injector

/-! The coordinator (walker.rs). -/

/-- walker.rs:18-23 Multithreaded. -/
structure Multithreaded where
  num_threads : Nat
  follow_symlinks : Bool
  max_depth : Option Nat

/-- walker.rs:26-32 Multithreaded::new. -/
def Multithreaded.new (num_threads : Nat) : Multithreaded :=
  { num_threads := num_threads, follow_symlinks := false, max_depth := none }

/-- The worker configuration walk passes to WalkWorker::new
(walker.rs:72-73). -/
def Multithreaded.worker_cfg (m : Multithreaded) : WCfg :=
  { follow_symlinks := m.follow_symlinks, max_depth := m.max_depth }

/-- walker.rs:57: the root job walk seeds, unconditionally
Job::new(root, None, 0, true) — no stat of the root is performed. -/
def walk_root_job (root : FPath) : Job :=
  Job.new root none 0 true

/-- The shared and per-worker state of the traversal with W workers:
the global termination counter (AtomicI64, walker.rs:54), the global
injector, every worker's own queue (front first), and per worker its
WalkWorker state, its idle_cycles counter and whether its run_loop has
exited. -/
structure MState (W : Nat) where
  counter : Int
  injector : List Job
  queues : Fin W → List Job
  stats : Fin W → WStats
  idle : Fin W → Nat
  exited : Fin W → Bool

/-- The state right after walker.rs:34-58: counter initialized to 1,
the root job pushed onto the injector, all queues empty, all workers
fresh. -/
def mkInit (W : Nat) (root : FPath) : MState W :=
  { counter := 1, injector := [walk_root_job root],
    queues := fun _ => [], stats := fun _ => wstats0,
    idle := fun _ => 0, exited := fun _ => false }

/-- worker.rs:184-190 should_terminate: the global counter reads 0,
the own queue is empty, the injector is empty, and every stealer in
the array (the own one included) reports length 0. -/
def should_terminate {W : Nat} (s : MState W) (w : Fin W) : Bool :=
  (s.counter == 0) && (s.queues w).isEmpty && s.injector.isEmpty &&
    (List.finRange W).all (fun v => (s.queues v).length == 0)

/-- Effect of run_loop at worker w fully processing job j, as one
atomic step: queues' is the queue array after the job's removal (and
after any batch transfer), injector' the injector after removal. The
children pushed by process_job land at the back of the own queue and
idle_cycles resets to 0 (worker.rs:208). -/
def consume (cfg : WCfg) (fs : FS) {W : Nat} (s : MState W) (w : Fin W) (j : Job)
    (queues' : Fin W → List Job) (injector' : List Job) : MState W :=
  let r := run_loop_job cfg fs (s.stats w) j
  { counter := s.counter,
    injector := injector',
    queues := Function.update queues' w (queues' w ++ r.2),
    stats := Function.update s.stats w r.1,
    idle := Function.update s.idle w 0,
    exited := s.exited }

/-- worker.rs:214-260, the None arm of run_loop: idle_cycles += 1 and
the staged backoff. 1..=10 spin; 11 publishes local_work_delta into
the counter when nonzero; 12..=50 checks should_terminate (yield has
no state effect); 51+ checks should_terminate, then resets
idle_cycles to 12. A passing check breaks the loop: the worker exits. -/
def idle_backoff {W : Nat} (s : MState W) (w : Fin W) : MState W :=
  if s.idle w + 1 ≤ 10 then
    { s with idle := Function.update s.idle w (s.idle w + 1) }
  else if s.idle w + 1 = 11 then
    if (s.stats w).local_work_delta ≠ 0 then
      { s with counter := s.counter + (s.stats w).local_work_delta,
               stats := Function.update s.stats w
                 { s.stats w with local_work_delta := 0 },
               idle := Function.update s.idle w (s.idle w + 1) }
    else
      { s with idle := Function.update s.idle w (s.idle w + 1) }
  else if s.idle w + 1 ≤ 50 then
    if should_terminate s w then
      { s with exited := Function.update s.exited w true,
               idle := Function.update s.idle w (s.idle w + 1) }
    else
      { s with idle := Function.update s.idle w (s.idle w + 1) }
  else
    if should_terminate s w then
      { s with exited := Function.update s.exited w true,
               idle := Function.update s.idle w (s.idle w + 1) }
    else
      { s with idle := Function.update s.idle w 12 }

/-- One scheduler step of the traversal: some not-yet-exited worker
either consumes a job it found (from the front of its own queue, the
front of a victim's queue, or the front of the injector together with
an arbitrary batch remainder moved onto its own queue), or runs one
iteration of the idle backoff. Failure of find_work is allowed in any
state (Steal::Retry races), which only widens the behaviors. -/
inductive WalkStep (cfg : WCfg) (fs : FS) {W : Nat} : MState W → MState W → Prop where
  | take_own : ∀ (s : MState W) (w : Fin W) (j : Job) (rest : List Job),
      s.exited w = false → s.queues w = j :: rest →
      WalkStep cfg fs s (consume cfg fs s w j (Function.update s.queues w rest) s.injector)
  | take_steal : ∀ (s : MState W) (w v : Fin W) (j : Job) (rest : List Job),
      s.exited w = false → v ≠ w → s.queues v = j :: rest →
      WalkStep cfg fs s (consume cfg fs s w j (Function.update s.queues v rest) s.injector)
  | take_inject : ∀ (s : MState W) (w : Fin W) (j : Job) (extras rest : List Job),
      s.exited w = false → s.injector = j :: (extras ++ rest) →
      WalkStep cfg fs s
        (consume cfg fs s w j (Function.update s.queues w (s.queues w ++ extras)) rest)
  | idle_tick : ∀ (s : MState W) (w : Fin W),
      s.exited w = false →
      WalkStep cfg fs s (idle_backoff s w)

/-! The reduction walk performs after the scope (walker.rs:61-104):
worker handles are joined with panics and errors only logged
(walker.rs:83-87, their WorkerResult values are typed away and never
summed), then the processor handles are joined and each Ok(Ok(size))
is added into total_size (walker.rs:88-97). -/

/-- The outcome of joining one scoped thread handle: a panic, or the
thread's anyhow::Result. -/
inductive JoinOutcome (α : Type) where
  | panicked
  | joined (value : α)

/-- walker.rs:83-97: the total walk reports. Worker joins contribute
nothing (only logging); processor joins contribute their size when
both the join and the result succeed (u64 accumulation). -/
def walk_total_size (_worker_joins : List (JoinOutcome (Except Unit WorkerResult)))
    (proc_joins : List (JoinOutcome (Except Unit Nat))) : Nat :=
  proc_joins.foldl
    (fun total_size h =>
      match h with
      | JoinOutcome.joined (Except.ok size) => (total_size + size) % U64
      | _ => total_size) 0

/-- The reduction the claim describes, following the spec's words (for
comparison with walk_total_size): sum of total_blocks over every
worker join that succeeded. -/
def sum_worker_blocks (worker_joins : List (JoinOutcome (Except Unit WorkerResult))) : Nat :=
  worker_joins.foldl
    (fun acc h =>
      match h with
      | JoinOutcome.joined (Except.ok r) => (acc + r.total_blocks) % U64
      | _ => acc) 0

/-- walker.rs:108-154 process_worker: for every job received over the
channel, read symlink_metadata and add blocks * 512 bytes for
non-special files (u64 arithmetic); metadata failures are only
logged. The CHANNEL_ITEMS batching only partitions the received
stream and does not change the sum. -/
def process_worker (fs : FS) (received : List Job) : Nat :=
  received.foldl
    (fun total_size job =>
      match fs.lstat job.path with
      | some metadata =>
        if !(is_special_file metadata.fileType) then
          (total_size + (metadata.blocks * 512) % U64) % U64
        else total_size
      | none => total_size) 0

/-! Concrete inputs used by the closed theorems below. -/

/-- The worker configuration the shipped walker produces
(Multithreaded::new: follow_symlinks = false, max_depth = None). -/
def cfg0 : WCfg := { follow_symlinks := false, max_depth := none }

/-- A filesystem with a single empty directory at the root path. -/
def fs0 : FS :=
  { lstat := fun _ => none,
    read_dir := fun p => if p = ["r"] then some [] else none }

/-- Root path for the single-worker execution trace. -/
def c2root : FPath := ["r"]

/-- The single worker of the W = 1 execution trace. -/
def w0 : Fin 1 := ⟨0, Nat.one_pos⟩

/-- State after the worker takes the root job from the injector and
processes it (empty directory: delta becomes -1, nothing pushed). -/
def c2s1 : MState 1 :=
  consume cfg0 fs0 (mkInit 1 c2root) w0 (walk_root_job c2root)
    (Function.update (mkInit 1 c2root).queues w0 ((mkInit 1 c2root).queues w0 ++ [])) []

/-- One idle-backoff iteration of the single worker. -/
def idle1 : MState 1 → MState 1 := fun t => idle_backoff t w0

/-- Final state of the trace: ten spin cycles, the sync at cycle 11
(counter becomes 0), and the passing termination check at cycle 12. -/
def c2final : MState 1 := idle1^[12] c2s1

/-- Config for the depth-bug demonstration: max_depth = Some 1. -/
def cfgDepth1 : WCfg := { follow_symlinks := false, max_depth := some 1 }

/-- A job beyond the depth limit of cfgDepth1. -/
def jobDepth2 : Job := { path := ["a"], parent := none, depth := 2, is_dir := true }

/-- A filesystem whose root path is a regular file of 8 blocks. -/
def fsRootFile : FS :=
  { lstat := fun p => if p = ["root"] then some { fileType := FileType.regular, blocks := 8 } else none,
    read_dir := fun _ => none }

/-- A directory whose single entry has an undeterminable file type. -/
def fsUnknownChild : FS :=
  { lstat := fun _ => none,
    read_dir := fun p =>
      if p = ["d"] then some [some { path := ["d", "x"], fileType := none }] else none }

/-- The directory job for fsUnknownChild. -/
def jobDirD : Job := { path := ["d"], parent := none, depth := 0, is_dir := true }

/-- Two distinct jobs for the queue-discipline counterexample. -/
def jA : Job := { path := ["a"], parent := none, depth := 1, is_dir := true }

/-- Second job for the queue-discipline counterexample. -/
def jB : Job := { path := ["b"], parent := none, depth := 1, is_dir := true }

/-- Worker joins for the reduction counterexample: one worker joined
successfully carrying total_blocks = 5. -/
def wjC4 : List (JoinOutcome (Except Unit WorkerResult)) :=
  [JoinOutcome.joined (Except.ok { total_blocks := 5 })]

/-- Processor joins for the reduction counterexample: one processor
joined successfully having received nothing (size 0). -/
def pjC4 : List (JoinOutcome (Except Unit Nat)) :=
  [JoinOutcome.joined (Except.ok 0)]

/-! The CLI/config layer (src/cli.rs, src/config.rs). Only the fields
Config::from_cli reads are embedded. External facilities that cannot
be embedded are oracles in Env: PathBuf::exists, Regex::new validity,
num_cpus::get, and utils::parse_size (src/utils.rs, whose arithmetic
is f64 floating point — modeled as an oracle returning the parsed
byte count, none for an error). -/

/-- cli.rs:133-139 SortField. -/
inductive SortField where
  | name
  | size
  | count
  | time
deriving DecidableEq

/-- The fields of cli.rs:8-118 that Config::from_cli consumes. -/
structure Cli where
  paths : List FPath
  all : Bool
  dirs_only : Bool
  files_only : Bool
  apparent_size : Bool
  show_time : Bool
  sort : Option SortField
  reverse : Bool
  threshold : Option String
  total : Bool
  summarize : Bool
  include_patterns : List String
  exclude_patterns : List String
  exclude_caches : Bool
  max_depth : Option Nat
  min_depth : Option Nat
  dereference : Bool
  one_file_system : Bool
  count_links : Bool
  threads : Nat
  cache_size_mb : Nat
  no_cache : Bool
  buffer_errors : Bool
deriving DecidableEq

/-- The environment facilities config.rs calls out to. -/
structure Env where
  path_exists : FPath → Bool
  parse_size : String → Option Nat
  regex_ok : String → Bool
  num_cpus : Nat

/-- config.rs:46-57 OutputConfig. -/
structure OutputConfig where
  all : Bool
  dirs_only : Bool
  files_only : Bool
  apparent_size : Bool
  show_time : Bool
  sort_field : Option SortField
  reverse : Bool
  threshold : Option Nat
  total : Bool
  summarize : Bool
deriving DecidableEq

/-- config.rs:84-88 FilterConfig (patterns kept as their strings). -/
structure FilterConfig where
  exclude_patterns : List String
  include_patterns : List String
  exclude_caches : Bool
deriving DecidableEq

/-- config.rs:115-121 TraverseConfig. -/
structure TraverseConfig where
  max_depth : Option Nat
  min_depth : Option Nat
  follow_symlinks : Bool
  cross_filesystems : Bool
  count_hard_links : Bool
deriving DecidableEq

/-- config.rs:143-150 PerformanceConfig. -/
structure PerformanceConfig where
  threads : Nat
  batch_size : Nat
  channel_buffer : Nat
  cache_size_bytes : Nat
  use_cache : Bool
  buffer_errors : Bool
deriving DecidableEq

/-- config.rs:8-14 Config. -/
structure Config where
  paths : List FPath
  output_config : OutputConfig
  filter_config : FilterConfig
  traverse_config : TraverseConfig
  performance_config : PerformanceConfig
deriving DecidableEq

/-- The record config.rs:68-79 builds once the threshold is parsed. -/
def OutputConfig.build (cli : Cli) (threshold : Option Nat) : OutputConfig :=
  { all := cli.all, dirs_only := cli.dirs_only, files_only := cli.files_only,
    apparent_size := cli.apparent_size, show_time := cli.show_time,
    sort_field := cli.sort, reverse := cli.reverse, threshold := threshold,
    total := cli.total, summarize := cli.summarize }

/-- config.rs:60-80 OutputConfig::from_cli: parse the threshold when
present (an invalid size is an error), then copy the flags. -/
def OutputConfig.from_cli (env : Env) (cli : Cli) : Except String OutputConfig :=
  match cli.threshold with
  | some t =>
    match env.parse_size t with
    | some n => Except.ok (OutputConfig.build cli (some n))
    | none => Except.error "Invalid threshold size"
  | none => Except.ok (OutputConfig.build cli none)

/-- config.rs:91-111 FilterConfig::from_cli: every include pattern
must compile, then every exclude pattern. -/
def FilterConfig.from_cli (env : Env) (cli : Cli) : Except String FilterConfig :=
  if cli.include_patterns.all env.regex_ok then
    if cli.exclude_patterns.all env.regex_ok then
      Except.ok { exclude_patterns := cli.exclude_patterns,
                  include_patterns := cli.include_patterns,
                  exclude_caches := cli.exclude_caches }
    else Except.error "Invalid exclude pattern"
  else Except.error "Invalid include pattern"

/-- config.rs:125-128: ensure 0 < max_depth and max_depth <= 1000. -/
def ensure_max_depth : Option Nat → Except String Unit
  | none => Except.ok ()
  | some d =>
    if 0 < d then
      if d ≤ 1000 then Except.ok ()
      else Except.error "Max depth too large (maximum: 1000)"
    else Except.error "Max depth must be greater than 0"

/-- config.rs:129-131: ensure min_depth <= 1000. -/
def ensure_min_depth : Option Nat → Except String Unit
  | none => Except.ok ()
  | some d =>
    if d ≤ 1000 then Except.ok ()
    else Except.error "Min depth too large (maximum: 1000)"

/-- config.rs:124-139 TraverseConfig::from_cli. -/
def TraverseConfig.from_cli (cli : Cli) : Except String TraverseConfig :=
  match ensure_max_depth cli.max_depth with
  | Except.error e => Except.error e
  | Except.ok _ =>
    match ensure_min_depth cli.min_depth with
    | Except.error e => Except.error e
    | Except.ok _ =>
      Except.ok { max_depth := cli.max_depth, min_depth := cli.min_depth,
                  follow_symlinks := cli.dereference,
                  cross_filesystems := !cli.one_file_system,
                  count_hard_links := cli.count_links }

/-- config.rs:153-174 PerformanceConfig::from_cli: threads = 0 means
num_cpus, otherwise at most 1000; cache_size_mb capped at 10000 and
converted to bytes with a saturating multiply (64-bit usize). -/
def PerformanceConfig.build (threads : Nat) (cli : Cli) : PerformanceConfig :=
  { threads := threads, batch_size := 64, channel_buffer := 1000,
    cache_size_bytes := min (min cli.cache_size_mb 10000 * (1024 * 1024)) (U64 - 1),
    use_cache := !cli.no_cache, buffer_errors := cli.buffer_errors }

/-- config.rs:153-174 PerformanceConfig::from_cli (record above). -/
def PerformanceConfig.from_cli (env : Env) (cli : Cli) : Except String PerformanceConfig :=
  if cli.threads = 0 then
    Except.ok (PerformanceConfig.build env.num_cpus cli)
  else if cli.threads ≤ 1000 then
    Except.ok (PerformanceConfig.build cli.threads cli)
  else Except.error "Thread count too large (maximum: 1000)"

/-- config.rs:17-42 Config::from_cli: keep only the paths that exist
(in their original order), fail when none remains, then build the four
sub-configurations, propagating their first error. -/
def Config.from_cli (env : Env) (cli : Cli) : Except String Config :=
  let paths := cli.paths.filter env.path_exists
  if paths.isEmpty then Except.error "Given paths do not exist"
  else
    match OutputConfig.from_cli env cli with
    | Except.error e => Except.error e
    | Except.ok output_config =>
      match FilterConfig.from_cli env cli with
      | Except.error e => Except.error e
      | Except.ok filter_config =>
        match TraverseConfig.from_cli cli with
        | Except.error e => Except.error e
        | Except.ok traverse_config =>
          match PerformanceConfig.from_cli env cli with
          | Except.error e => Except.error e
          | Except.ok performance_config =>
            Except.ok { paths := paths, output_config := output_config,
                        filter_config := filter_config,
                        traverse_config := traverse_config,
                        performance_config := performance_config }

/-- True exactly on Except.error. -/
def is_err {α : Type} (r : Except String α) : Bool :=
  match r with
  | Except.error _ => true
  | Except.ok _ => false

/-- An environment where every path exists and every pattern compiles. -/
def envC10 : Env :=
  { path_exists := fun _ => true, parse_size := fun _ => none,
    regex_ok := fun _ => true, num_cpus := 4 }

/-- CLI arguments with one (existing) path and max_depth = 0; every
other field is the parser's default (cli.rs). -/
def cliC10 : Cli :=
  { paths := [["p"]], all := false, dirs_only := false, files_only := false,
    apparent_size := false, show_time := false, sort := none, reverse := false,
    threshold := none, total := false, summarize := false,
    include_patterns := [], exclude_patterns := [], exclude_caches := false,
    max_depth := some 0, min_depth := none, dereference := false,
    one_file_system := false, count_links := false, threads := 32,
    cache_size_mb := 100, no_cache := false, buffer_errors := false }

/-! ## Theorems -/

/-- Folding WorkerQueue.push over a job list appends it in push order. -/
theorem foldl_push_append (l q : List Job) :
    List.foldl WorkerQueue.push q l = q ++ l := by
  induction l generalizing q with
  | nil => simp
  | cons a t ih => simp [WorkerQueue.push, ih]

/-- C6 (amended): walker.rs:46 creates every own queue with
Worker::new_fifo, so the local pop of find_work returns the EARLIEST
pushed job: after any sequence of pushes onto an initially empty own
queue without intervening steals, find_work returns the first pushed
job (pop from the front), not the most recent one. -/
theorem find_work_local_pop_fifo (id : Nat) (stealers : List (List Job))
    (injector : List Job) (j : Job) (js : List Job) :
    find_work id (List.foldl WorkerQueue.push [] (j :: js)) stealers injector = some j := by
  rw [foldl_push_append]
  rfl

/-- C6 (counterexample): pushing jA then jB onto the empty own queue,
find_work returns jA — the least recently pushed of the two distinct
jobs — refuting the claim that the local pop is LIFO. -/
theorem find_work_local_pop_not_lifo :
    find_work 0 (WorkerQueue.push (WorkerQueue.push [] jA) jB) [] [] = some jA ∧
      decide (jA = jB) = false := by
  exact ⟨rfl, by decide⟩

/-- C1: at a job whose depth (2) exceeds max_depth (1), process_job
returns the depth-exceeded error BEFORE the local_work_delta decrement
(worker.rs:269-281): the worker state comes back unchanged (the job is
not counted as consumed) and run_loop counts the skip into
errors_count — the code contradicts the claim on both points. -/
theorem process_job_depth_skip_bug :
    process_job cfgDepth1 fs0 wstats0 jobDepth2 =
      (wstats0, [], Except.error PErr.depthExceeded) ∧
    (run_loop_job cfgDepth1 fs0 wstats0 jobDepth2).1.errors_count =
      wstats0.errors_count + 1 ∧
    (run_loop_job cfgDepth1 fs0 wstats0 jobDepth2).1.local_work_delta =
      wstats0.local_work_delta := by
  exact ⟨rfl, rfl, rfl⟩

/-- C3 (counterexample): with a filesystem whose root path is a
regular file, walk still seeds the root job with is_dir = true —
walker.rs:57 never stats the root — refuting the claim that a
regular-file root yields is_dir = false. -/
theorem walk_root_file_seeded_as_dir :
    fsRootFile.lstat ["root"] = some { fileType := FileType.regular, blocks := 8 } ∧
    (walk_root_job ["root"]).is_dir = true := by
  exact ⟨by decide, rfl⟩

/-- C3 (amended): walk performs no stat of the root: for every root
path it unconditionally constructs Job::new(root, None, 0, true), the
injector is seeded with exactly that job, the termination counter with
1, and seeding itself can never return an error. -/
theorem walk_root_seed (root : FPath) (W : Nat) :
    walk_root_job root = Job.new root none 0 true ∧
    (mkInit W root).injector = [walk_root_job root] ∧
    (mkInit W root).counter = 1 := by
  exact ⟨rfl, rfl, rfl⟩

/-- C4 (counterexample): one worker joins successfully carrying
total_blocks = 5 while the processor thread reports 0; the total walk
computes is 0 (walker.rs:88-97 sums only processor results), not the 5
the claim's sum over joined workers would give. -/
theorem walk_total_discards_worker_blocks :
    walk_total_size wjC4 pjC4 = 0 ∧ sum_worker_blocks wjC4 = 5 := by
  exact ⟨rfl, rfl⟩

/-- C4 (amended): the total walk reports is the u64 sum of the sizes
returned by processor threads whose join and result both succeeded;
the worker threads' results are never summed (their joins are only
logged, so the total is independent of them), and a panicked or failed
processor thread leaves the remaining contributions summed — one
thread's failure aborts neither the others nor the call. -/
theorem walk_total_from_processors
    (wj wj2 : List (JoinOutcome (Except Unit WorkerResult)))
    (pj pj1 pj2 : List (JoinOutcome (Except Unit Nat))) :
    walk_total_size wj pj = walk_total_size wj2 pj ∧
    walk_total_size wj (pj1 ++ JoinOutcome.panicked :: pj2) =
      walk_total_size wj (pj1 ++ pj2) ∧
    walk_total_size wj (pj1 ++ JoinOutcome.joined (Except.error ()) :: pj2) =
      walk_total_size wj (pj1 ++ pj2) := by
  refine ⟨rfl, ?_, ?_⟩ <;> simp [walk_total_size, List.foldl_append]

/-- C7: process_file reads metadata through symlink_metadata only (the
embedded FS exposes no following stat), leaves total_blocks unchanged
for special files (block device, char device, FIFO, socket, symlink)
and for failed stats, and otherwise adds exactly metadata.blocks — the
512-byte-unit count, no byte conversion — as u64; every other counter
is untouched. -/
theorem process_file_semantics (fs : FS) (st : WStats) (job : Job) :
    ((process_file fs st job).1.total_blocks =
      match fs.lstat job.path with
      | none => st.total_blocks
      | some m =>
        if is_special_file m.fileType then st.total_blocks
        else (st.total_blocks + m.blocks) % U64) ∧
    ((process_file fs st job).1.local_work_delta = st.local_work_delta ∧
      (process_file fs st job).1.dirs_processed = st.dirs_processed ∧
      (process_file fs st job).1.files_processed = st.files_processed ∧
      (process_file fs st job).1.errors_count = st.errors_count) ∧
    (∀ t : FileType, is_special_file t = true ↔
      (t = FileType.blockDev ∨ t = FileType.charDev ∨ t = FileType.fifo ∨
        t = FileType.socket ∨ t = FileType.symlink)) := by
  refine ⟨?_, ?_, ?_⟩
  · unfold process_file
    cases h : fs.lstat job.path with
    | none => rfl
    | some m =>
      by_cases hs : is_special_file m.fileType
      · simp [hs]
      · simp [hs]
  · unfold process_file
    cases fs.lstat job.path with
    | none => exact ⟨rfl, rfl, rfl, rfl⟩
    | some m =>
      by_cases hs : is_special_file m.fileType
      · simp [hs]
      · simp [hs]
  · intro t
    cases t <;> decide

/-- C8 (counterexample): listing a directory whose single entry has an
undeterminable file type leaves errors_count at 0 and creates no job,
refuting the claim that errors_count is incremented by one for such an
entry. -/
theorem unknown_file_type_entry_not_counted :
    (process_job cfg0 fsUnknownChild wstats0 jobDirD).1.errors_count = 0 ∧
    (process_job cfg0 fsUnknownChild wstats0 jobDirD).2.1 = [] ∧
    (process_job cfg0 fsUnknownChild wstats0 jobDirD).1.dirs_processed = 1 := by
  exact ⟨rfl, rfl, rfl⟩

/-- C8 (amended): an entry whose file type cannot be determined is
silently ignored — the per-entry step is the identity, so no Job is
created, no processing occurs and errors_count is unchanged; the
errors_count increment belongs to entries the directory iterator
itself fails to yield (the none entry). -/
theorem unknown_file_type_entry_ignored (fs : FS) (d : Nat)
    (acc : WStats × List Job) (p : FPath) (l1 l2 : List (Option DirEntry)) :
    List.foldl (dir_entry_step fs d) acc
        (l1 ++ (some { path := p, fileType := none }) :: l2) =
      List.foldl (dir_entry_step fs d) acc (l1 ++ l2) ∧
    dir_entry_step fs d acc (some { path := p, fileType := none }) = acc ∧
    (dir_entry_step fs d acc none).1.errors_count = acc.1.errors_count + 1 := by
  refine ⟨?_, rfl, rfl⟩
  rw [List.foldl_append, List.foldl_append, List.foldl_cons]
  rfl

/-- C9: Multithreaded::new sets follow_symlinks = false and
max_depth = None for every thread count (walker.rs:26-32), so the
worker configuration walk passes on applies no depth cutoff at all:
process_job under it is exactly process_job_body, whose filesystem
access goes through symlink_metadata and read_dir only — symlinks are
never followed. -/
theorem multithreaded_new_defaults (n : Nat) :
    (Multithreaded.new n).follow_symlinks = false ∧
    (Multithreaded.new n).max_depth = none ∧
    (Multithreaded.new n).num_threads = n ∧
    ∀ (fs : FS) (st : WStats) (job : Job),
      process_job (Multithreaded.worker_cfg (Multithreaded.new n)) fs st job =
        process_job_body fs st job := by
  exact ⟨rfl, rfl, rfl, fun _ _ _ => rfl⟩

/-- consume never changes the exited flags. -/
theorem consume_exited (cfg : WCfg) (fs : FS) {W : Nat} (s : MState W) (w : Fin W)
    (j : Job) (queues1 : Fin W → List Job) (injector1 : List Job) :
    (consume cfg fs s w j queues1 injector1).exited = s.exited := rfl

/-- Unfolding of should_terminate into its four conditions. -/
theorem should_terminate_iff_aux {W : Nat} (s : MState W) (w : Fin W) :
    should_terminate s w = true ↔
      (s.counter = 0 ∧ s.queues w = [] ∧ s.injector = [] ∧
        ∀ v : Fin W, (s.queues v).length = 0) := by
  unfold should_terminate
  simp [List.all_eq_true, List.isEmpty_iff, List.mem_finRange]
  tauto

/-- One idle-backoff step either leaves the exited flags unchanged, or
exits the worker — and then the termination check passed on the
pre-state and the counter is untouched. -/
theorem idle_backoff_exit_or {W : Nat} (s : MState W) (w : Fin W) :
    (idle_backoff s w).exited = s.exited ∨
      (should_terminate s w = true ∧ (idle_backoff s w).counter = s.counter ∧
        (idle_backoff s w).exited = Function.update s.exited w true) := by
  unfold idle_backoff
  split_ifs with h1 h2 h3 h4 h5 h6 <;>
    first
      | exact Or.inl rfl
      | exact Or.inr ⟨by assumption, rfl, rfl⟩

/-- A step into an all-exited state is an exit step of the last active
worker: it requires the counter to read 0 and leaves it unchanged. -/
theorem step_exit_counter (cfg : WCfg) (fs : FS) {W : Nat} {s t : MState W}
    (hstep : WalkStep cfg fs s t) (hall : ∀ w : Fin W, t.exited w = true) :
    t.counter = 0 := by
  cases hstep with
  | take_own w j rest hx hq =>
    have h := hall w
    rw [consume_exited, hx] at h
    exact absurd h (by simp)
  | take_steal w v j rest hx hvw hq =>
    have h := hall w
    rw [consume_exited, hx] at h
    exact absurd h (by simp)
  | take_inject w j extras rest hx hinj =>
    have h := hall w
    rw [consume_exited, hx] at h
    exact absurd h (by simp)
  | idle_tick w hx =>
    rcases idle_backoff_exit_or s w with hsame | ⟨hterm, hcnt, _⟩
    · have h := hall w
      rw [hsame, hx] at h
      exact absurd h (by simp)
    · rw [hcnt]
      exact ((should_terminate_iff_aux s w).mp hterm).1

/-- C5: should_terminate returns true if and only if all four
conditions hold at once: the global counter reads 0 (the source's
Acquire load), the own queue is empty, the injector is empty, and
every stealer in the array reports length 0. -/
theorem should_terminate_characterization {W : Nat} (s : MState W) (w : Fin W) :
    should_terminate s w = true ↔
      (s.counter = 0 ∧ s.queues w = [] ∧ s.injector = [] ∧
        ∀ v : Fin W, (s.queues v).length = 0) :=
  should_terminate_iff_aux s w

/-- C2: walk initializes the termination counter to 1 when it seeds
the root job (walker.rs:54-58); in every reachable state of the worker
protocol in which all workers' run loops have exited, the counter
reads exactly 0; and in any state where should_terminate returns true
the counter is not negative (it reads exactly 0). -/
theorem termination_counter_invariant (cfg : WCfg) (fs : FS) {W : Nat} (root : FPath)
    (s : MState W) (hW : 0 < W)
    (hreach : Relation.ReflTransGen (WalkStep cfg fs) (mkInit W root) s)
    (hall : ∀ w : Fin W, s.exited w = true) :
    (mkInit W root).counter = 1 ∧ s.counter = 0 ∧
      (∀ (t : MState W) (v : Fin W), should_terminate t v = true → 0 ≤ t.counter) := by
  refine ⟨rfl, ?_, ?_⟩
  · rcases Relation.ReflTransGen.cases_tail hreach with heq | ⟨c, _hrc, hstep⟩
    · rw [heq] at hall
      have h0 := hall ⟨0, hW⟩
      simp [mkInit] at h0
    · exact step_exit_counter cfg fs hstep hall
  · intro t v h
    have hc := ((should_terminate_iff_aux t v).mp h).1
    rw [hc]

/-- Chaining n idle-backoff steps of the single worker, each taken
while it has not yet exited. -/
theorem c2_idle_chain (n : Nat) (s : MState 1)
    (h : ∀ k : Fin n, (idle1^[(k : Nat)] s).exited w0 = false) :
    Relation.ReflTransGen (WalkStep cfg0 fs0) s (idle1^[n] s) := by
  induction n with
  | zero =>
    rw [Function.iterate_zero_apply]
  | succ m ih =>
    rw [Function.iterate_succ_apply']
    refine Relation.ReflTransGen.tail (ih ?_) ?_
    · exact fun k => h ⟨k.val, Nat.lt_succ_of_lt k.isLt⟩
    · exact WalkStep.idle_tick (idle1^[m] s) w0 (h ⟨m, Nat.lt_succ_self m⟩)

/-- The concrete single-worker trace on an empty root directory: take
the root job from the injector, spin to the sync at cycle 11 (the
counter becomes 0), pass the termination check at cycle 12. -/
theorem c2_trace :
    Relation.ReflTransGen (WalkStep cfg0 fs0) (mkInit 1 c2root) c2final := by
  have h1 : WalkStep cfg0 fs0 (mkInit 1 c2root) c2s1 :=
    WalkStep.take_inject (mkInit 1 c2root) w0 (walk_root_job c2root) [] [] rfl rfl
  exact Relation.ReflTransGen.head h1 (c2_idle_chain 12 c2s1 (by decide))

/-- C2 witness: on the concrete trace the final state has its (only)
worker exited and the counter at 0. -/
theorem termination_counter_invariant_witness :
    (mkInit 1 c2root).counter = 1 ∧ c2final.counter = 0 ∧
      (∀ (t : MState 1) (v : Fin 1), should_terminate t v = true → 0 ≤ t.counter) :=
  termination_counter_invariant cfg0 fs0 c2root c2final Nat.one_pos c2_trace (by decide)

/-- C10 (counterexample): with every path existing, a CLI whose
max_depth is 0 still makes Config::from_cli return an error
(config.rs:126), refuting "an error if and only if none of the given
paths exist". -/
theorem from_cli_error_despite_existing_path :
    is_err (Config.from_cli envC10 cliC10) = true ∧
    envC10.path_exists ["p"] = true ∧
    cliC10.paths = [["p"]] := by
  exact ⟨rfl, rfl, rfl⟩

/-- C10 (amended): Config::from_cli drops every non-existing path,
keeping the existing ones in their original order; it errors whenever
no given path exists, but an error does not imply that — a
sub-configuration validation (threshold parsing, pattern compilation,
depth or thread bounds) can also fail with existing paths. On success
the paths field is exactly the existing paths in order and nonempty. -/
theorem from_cli_filters_existing_paths (env : Env) (cli : Cli) :
    ((cli.paths.filter env.path_exists).isEmpty = true →
      is_err (Config.from_cli env cli) = true) ∧
    (∀ c : Config, Config.from_cli env cli = Except.ok c →
      c.paths = cli.paths.filter env.path_exists ∧ c.paths.isEmpty = false) := by
  constructor
  · intro hempty
    unfold Config.from_cli
    simp [hempty, is_err]
  · intro c h
    unfold Config.from_cli at h
    by_cases hempty : (cli.paths.filter env.path_exists).isEmpty
    · simp [hempty] at h
    · rcases hoc : OutputConfig.from_cli env cli with e | oc
      · simp [hempty, hoc] at h
      · rcases hfc : FilterConfig.from_cli env cli with e | fc
        · simp [hempty, hoc, hfc] at h
        · rcases htc : TraverseConfig.from_cli cli with e | tc
          · simp [hempty, hoc, hfc, htc] at h
          · rcases hpc : PerformanceConfig.from_cli env cli with e | pc
            · simp [hempty, hoc, hfc, htc, hpc] at h
            · simp [hempty, hoc, hfc, htc, hpc] at h
              refine ⟨?_, ?_⟩
              · rw [← h]
              · rw [← h]
                simpa using hempty
